import Mathlib

/-
Shallow embedding of the rusq/dlog Go package (src/dlog.go): a wrapper
around the Go standard-library logger adding Debug output functions.

Modelling conventions:
* The destination stream of a logger is the list of records written so far.
  The header produced by the standard logger (date, time, caller file:line)
  is runtime data (wall clock, call stack) and is omitted from records; the
  properties below concern the message payload, which follows the header.
* Go's variadic interface arguments are modelled by the GoValue type,
  covering the value kinds the repository passes (strings and integers).
* Go's fmt formatting is modelled for the verb subset the repository uses.
* A nil embedded *log.Logger is Option.none; dereferencing it (as the
  Panic/Fatal paths would) is modelled by an Option result, none standing
  for the ensuing runtime crash.
* Flag bitmasks are Nat; all flag values are far below 2^63, so Go's int64
  arithmetic never wraps and Nat arithmetic is exact.
-/

namespace Dlog

/-- Flag constants of the Go standard log package (log.Ldate and friends). -/
def Ldate : Nat := 1

/-- log.Ltime = 1 <<< 1. -/
def Ltime : Nat := 2

/-- log.Lmicroseconds = 1 <<< 2. -/
def Lmicroseconds : Nat := 4

/-- log.Llongfile = 1 <<< 3. -/
def Llongfile : Nat := 8

/-- log.Lshortfile = 1 <<< 4. -/
def Lshortfile : Nat := 16

/-- log.LUTC = 1 <<< 5. -/
def LUTC : Nat := 32

/-- log.LstdFlags = Ldate | Ltime. -/
def LstdFlags : Nat := Ldate ||| Ltime

/-- Go bitwise AND NOT (x &^ y): clears in x every bit that is set in y.
On Nat this equals x - (x &&& y), because x &&& y is a sub-mask of x;
this form evaluates in the kernel. -/
def andNot (x y : Nat) : Nat := x - (x &&& y)

/-- A Go value passed to a variadic ...interface argument; the repository
passes strings and integers. -/
inductive GoValue where
  | str (s : String)
  | int (n : Int)
deriving DecidableEq

/-- Default rendering of a value, as fmt's %v / Sprint would produce. -/
def GoValue.render : GoValue → String
  | .str s => s
  | .int n => toString n

/-- Whether the value is a string operand (fmt.Sprint spacing depends on it). -/
def GoValue.isStr : GoValue → Bool
  | .str _ => true
  | .int _ => false

/-- fmt.Sprint: operands are concatenated; a space is added between two
adjacent operands exactly when neither is a string. -/
def sprint : List GoValue → String
  | [] => ""
  | [v] => v.render
  | v :: w :: rest =>
      v.render ++ (if !v.isStr && !w.isStr then " " else "") ++ sprint (w :: rest)

/-- Helper for fmt.Sprintln: operands joined with single spaces. -/
def sprintlnSpaced : List GoValue → String
  | [] => ""
  | [v] => v.render
  | v :: w :: rest => v.render ++ " " ++ sprintlnSpaced (w :: rest)

/-- fmt.Sprintln: operands joined with spaces, newline appended. -/
def sprintln (vs : List GoValue) : String := sprintlnSpaced vs ++ "\n"

/-- Rendering of a surplus argument in fmt's EXTRA diagnostic. -/
def extraArg : GoValue → String
  | .str s => "string=" ++ s
  | .int n => "int=" ++ toString n

/-- Comma-separated surplus arguments for fmt's EXTRA diagnostic. -/
def extras : List GoValue → String
  | [] => ""
  | [v] => extraArg v
  | v :: w :: rest => extraArg v ++ ", " ++ extras (w :: rest)

/-- fmt.Sprintf over the verb subset the repository uses: literal text, the
verbs %s, %v and %d, the escape %%, and Go's MISSING/EXTRA diagnostics. -/
def sprintfAux : List Char → List GoValue → String
  | [], [] => ""
  | [], v :: vs => "%!(EXTRA " ++ extras (v :: vs) ++ ")"
  | '%' :: c :: rest, args =>
      if c = 's' || c = 'v' || c = 'd' then
        match args with
        | [] => "%!" ++ String.mk [c] ++ "(MISSING)" ++ sprintfAux rest []
        | a :: as => a.render ++ sprintfAux rest as
      else if c = '%' then "%" ++ sprintfAux rest args
      else "%" ++ String.mk [c] ++ sprintfAux rest args
  | c :: rest, args => String.mk [c] ++ sprintfAux rest args

/-- fmt.Sprintf on a format string. -/
def sprintf (format : String) (args : List GoValue) : String :=
  sprintfAux format.toList args

/-- The embedded Go standard-library log.Logger: destination stream (the
records written so far), prefix string (field pfx, since the Go field name
is a reserved word here) and flags bitmask. -/
structure BaseLogger where
  out : List String
  pfx : String
  flags : Nat
deriving DecidableEq

/-- log.Logger.Output's newline rule: a newline is appended when the
message is empty or does not already end with one. -/
def withNewline (s : String) : String :=
  if s.toList.getLast? = some '\n' then s else s ++ "\n"

/-- log.Logger.Output: appends the record (message with the newline rule
applied) to the destination stream. The date/time/caller header is runtime
data and omitted; see the module comment. -/
def BaseLogger.output (b : BaseLogger) (s : String) : BaseLogger :=
  { b with out := b.out ++ [withNewline s] }

/-- dlog.Logger: embeds an optional standard logger (the embedded
*log.Logger pointer, none when nil) plus the debug flag. The mutex guards
only the flag update and carries no sequential semantics. -/
structure Logger where
  base : Option BaseLogger
  debug : Bool
deriving DecidableEq

/-- dlog.defaultLogger(): log.New(os.Stderr, "", log.LstdFlags). -/
def defaultLogger : BaseLogger := { out := [], pfx := "", flags := LstdFlags }

/-- dlog.New(out, prefix, flag, debug): wraps log.New(out, prefix, flag);
the writer argument is the stream's current contents. -/
def New (out : List String) (pfx : String) (flag : Nat) (debug : Bool) : Logger :=
  { base := some { out := out, pfx := pfx, flags := flag }, debug := debug }

/-- Records written so far on the logger's destination stream (empty for a
nil embedded logger, which has produced no output). -/
def Logger.written (l : Logger) : List String :=
  (l.base.map BaseLogger.out).getD []

/-- Flags bitmask of the embedded logger (0 for a nil embedded logger). -/
def Logger.getFlags (l : Logger) : Nat :=
  (l.base.map BaseLogger.flags).getD 0

/-- Logger.SetDebug(b): substitutes the default logger if the embedded one
is nil, sets debug to b, and under the mutex updates the flags: the true
branch ORs in log.Lshortfile, the false branch is flags &^ (1 << log.Lshortfile)
exactly as written in the source, i.e. it clears bit position 16 (value
2^16), since log.Lshortfile itself is 16. -/
def Logger.SetDebug (l : Logger) (b : Bool) : Logger :=
  let b0 := l.base.getD defaultLogger
  let f := if b then b0.flags ||| Lshortfile
           else andNot b0.flags (1 <<< Lshortfile)
  { base := some { b0 with flags := f }, debug := b }

/-- Logger.Debug(v...): substitutes the default logger if nil, then if the
debug flag is set writes fmt.Sprint(v...) through Output. -/
def Logger.Debug (l : Logger) (v : List GoValue) : Logger :=
  let b0 := l.base.getD defaultLogger
  if l.debug then { l with base := some (b0.output (sprint v)) }
  else { l with base := some b0 }

/-- Logger.Debugln(v...): like Debug, with fmt.Sprintln formatting. -/
def Logger.Debugln (l : Logger) (v : List GoValue) : Logger :=
  let b0 := l.base.getD defaultLogger
  if l.debug then { l with base := some (b0.output (sprintln v)) }
  else { l with base := some b0 }

/-- Logger.Debugf(format, a...): like Debug, with fmt.Sprintf formatting. -/
def Logger.Debugf (l : Logger) (format : String) (a : List GoValue) : Logger :=
  let b0 := l.base.getD defaultLogger
  if l.debug then { l with base := some (b0.output (sprintf format a)) }
  else { l with base := some b0 }

/-- l.Output(2, s) on the wrapper: delegates to the embedded logger; a nil
embedded logger would be dereferenced and crash, modelled as none. -/
def Logger.Output (l : Logger) (s : String) : Option Logger :=
  l.base.map fun b => { l with base := some (b.output s) }

/-- Logger.Panic(v...): s := fmt.Sprint(v...); l.Output(2, s); panic(s).
The String component is the panic value. -/
def Logger.Panic (l : Logger) (v : List GoValue) : Option (Logger × String) :=
  (l.Output (sprint v)).map fun l2 => (l2, sprint v)

/-- Logger.Panicf(format, v...): as Panic with fmt.Sprintf formatting. -/
def Logger.Panicf (l : Logger) (format : String) (v : List GoValue) :
    Option (Logger × String) :=
  (l.Output (sprintf format v)).map fun l2 => (l2, sprintf format v)

/-- Logger.Panicln(v...): as Panic with fmt.Sprintln formatting. -/
def Logger.Panicln (l : Logger) (v : List GoValue) : Option (Logger × String) :=
  (l.Output (sprintln v)).map fun l2 => (l2, sprintln v)

/-- Package-level Fatal(v...): std.Output(2, fmt.Sprint(v...)); os.Exit(1).
The Nat component is the exit status. The std logger is passed explicitly. -/
def Fatal (std : Logger) (v : List GoValue) : Option (Logger × Nat) :=
  (std.Output (sprint v)).map fun l2 => (l2, 1)

/-- Package-level Fatalf: std.Output(2, fmt.Sprintf(format, v...)); os.Exit(1). -/
def Fatalf (std : Logger) (format : String) (v : List GoValue) :
    Option (Logger × Nat) :=
  (std.Output (sprintf format v)).map fun l2 => (l2, 1)

/-- Package-level Fatalln: std.Output(2, fmt.Sprintln(v...)); os.Exit(1). -/
def Fatalln (std : Logger) (v : List GoValue) : Option (Logger × Nat) :=
  (std.Output (sprintln v)).map fun l2 => (l2, 1)

/-- The package init function: isDebug := os.Getenv("DEBUG") != "" (Getenv
yields "" for an unset variable), flags := log.LstdFlags, ORed with
log.Lshortfile when isDebug; std := New(os.Stderr, "", flags, isDebug). -/
def initStd (debugEnv : String) : Logger :=
  let isDebug := debugEnv != ""
  let flags := if isDebug then LstdFlags ||| Lshortfile else LstdFlags
  New [] "" flags isDebug

/-- Go context restricted to this package's single private loggerKey:
context.Background(), or a context.WithValue derivation attaching a
*Logger under loggerKey (none standing for a nil pointer). -/
inductive Context where
  | background
  | withLogger (parent : Context) (l : Option Logger)
deriving DecidableEq

/-- ctx.Value(loggerKey): the innermost attachment, if any. -/
def Context.loggerValue : Context → Option (Option Logger)
  | .background => none
  | .withLogger _ l => some l

/-- dlog.NewContext(ctx, l): context.WithValue(ctx, loggerKey, l). -/
def NewContext (ctx : Context) (l : Option Logger) : Context :=
  .withLogger ctx l

/-- dlog.FromContext(ctx): l, ok := ctx.Value(loggerKey).(*Logger); if
l == nil or the assertion fails, the std logger (passed explicitly) is
returned instead. -/
def FromContext (std : Logger) (ctx : Context) : Logger :=
  match ctx.loggerValue with
  | some (some l) => l
  | some none => std
  | none => std

/-- One call in a sequence of debug-output calls on a logger. -/
inductive DebugCall where
  | dbg (v : List GoValue)
  | dbgln (v : List GoValue)
  | dbgf (format : String) (v : List GoValue)

/-- Performs one debug-output call. -/
def applyDebugCall (l : Logger) : DebugCall → Logger
  | .dbg v => l.Debug v
  | .dbgln v => l.Debugln v
  | .dbgf format v => l.Debugf format v

/-- Performs a sequence of debug-output calls, left to right. -/
def applyDebugCalls (l : Logger) (cs : List DebugCall) : Logger :=
  cs.foldl applyDebugCall l

/-- The out stream of the (nil-substituted) embedded logger is the stream
of records written so far: defaultLogger starts with an empty stream. -/
theorem written_getD (o : Option BaseLogger) :
    (o.getD defaultLogger).out = (o.map BaseLogger.out).getD [] := by
  cases o <;> rfl

/-- With debug off, one Debug/Debugln/Debugf call leaves the stream and the
debug flag unchanged. -/
theorem debug_off_step (l : Logger) (c : DebugCall) (h : l.debug = false) :
    (applyDebugCall l c).written = l.written ∧ (applyDebugCall l c).debug = false := by
  cases c <;>
    simp [applyDebugCall, Logger.Debug, Logger.Debugln, Logger.Debugf, h,
      Logger.written, written_getD]

/-- With debug on, Debug appends exactly one record: Sprint of the
arguments with the Output newline rule. -/
theorem Debug_written_debug_on (l : Logger) (h : l.debug = true) (vs : List GoValue) :
    (l.Debug vs).written = l.written ++ [withNewline (sprint vs)] := by
  simp [Logger.Debug, h, Logger.written, BaseLogger.output, written_getD]

/-- With debug on, Debugln appends exactly one record: Sprintln of the
arguments with the Output newline rule. -/
theorem Debugln_written_debug_on (l : Logger) (h : l.debug = true) (vs : List GoValue) :
    (l.Debugln vs).written = l.written ++ [withNewline (sprintln vs)] := by
  simp [Logger.Debugln, h, Logger.written, BaseLogger.output, written_getD]

/-- With debug on, Debugf appends exactly one record: Sprintf of the format
and arguments with the Output newline rule. -/
theorem Debugf_written_debug_on (l : Logger) (h : l.debug = true)
    (format : String) (vs : List GoValue) :
    (l.Debugf format vs).written = l.written ++ [withNewline (sprintf format vs)] := by
  simp [Logger.Debugf, h, Logger.written, BaseLogger.output, written_getD]

/-- C1: the claim fails on the code. On a logger whose flags are
LstdFlags | Lshortfile, SetDebug(false) clears the debug flag but the
short-file-name bit (bit 4) is still set afterwards, because the source
clears bit (1 << Lshortfile) = 2^16 instead of the Lshortfile bit. -/
theorem C1_SetDebug_false_leaves_shortfile :
    ((New [] "" (LstdFlags ||| Lshortfile) true).SetDebug false).debug = false ∧
    Nat.testBit ((New [] "" (LstdFlags ||| Lshortfile) true).SetDebug false).getFlags 4 = true := by
  decide

/-- C2: the claim fails on the code. Starting from flags = LstdFlags (3),
SetDebug(true) then SetDebug(false) leaves flags = 19, not the original 3:
the round trip does not restore the flags bitmask. -/
theorem C2_roundtrip_changes_flags :
    (((New [] "" LstdFlags false).SetDebug true).SetDebug false).getFlags ≠
      (New [] "" LstdFlags false).getFlags ∧
    (((New [] "" LstdFlags false).SetDebug true).SetDebug false).getFlags = 19 := by
  decide

/-- C3: for every logger with an embedded logger present, SetDebug(true)
makes the debug flag true, sets the short-file-name bit (bit 4) in the
flags bitmask, and preserves every other bit of the previous bitmask. -/
theorem C3_SetDebug_true_sets_shortfile_preserves_rest (l : Logger) (b0 : BaseLogger)
    (h : l.base = some b0) :
    (l.SetDebug true).debug = true ∧
    Nat.testBit (l.SetDebug true).getFlags 4 = true ∧
    ∀ i : Nat, i ≠ 4 → Nat.testBit (l.SetDebug true).getFlags i = Nat.testBit b0.flags i := by
  have hf : (l.SetDebug true).getFlags = b0.flags ||| Lshortfile := by
    simp [Logger.SetDebug, h, Logger.getFlags]
  have h164 : Nat.testBit 16 4 = true := by decide
  refine ⟨rfl, ?_, ?_⟩
  · rw [hf, Lshortfile, Nat.testBit_lor, h164, Bool.or_true]
  · intro i hi
    rw [hf, Lshortfile, Nat.testBit_lor]
    have h16 : Nat.testBit 16 i = false := by
      have e : (16 : Nat) = 2 ^ 4 := by norm_num
      rw [e]
      exact Nat.testBit_two_pow_of_ne fun hh => hi hh.symm
    rw [h16, Bool.or_false]

/-- Witness for C3 at a concrete logger with flags LstdFlags. -/
theorem C3_witness :
    (New [] "" LstdFlags false).base = some ⟨[], "", LstdFlags⟩ ∧
    (((New [] "" LstdFlags false).SetDebug true).debug = true ∧
      Nat.testBit ((New [] "" LstdFlags false).SetDebug true).getFlags 4 = true ∧
      ∀ i : Nat, i ≠ 4 → Nat.testBit ((New [] "" LstdFlags false).SetDebug true).getFlags i =
        Nat.testBit (BaseLogger.mk [] "" LstdFlags).flags i) :=
  ⟨rfl, C3_SetDebug_true_sets_shortfile_preserves_rest (New [] "" LstdFlags false) ⟨[], "", LstdFlags⟩ rfl⟩

/-- C4: for every logger with debug off, every finite sequence of
Debug/Debugln/Debugf calls, with any arguments, writes nothing to the
destination stream. -/
theorem C4_debug_off_writes_nothing (l : Logger) (h : l.debug = false)
    (cs : List DebugCall) :
    (applyDebugCalls l cs).written = l.written := by
  induction cs generalizing l with
  | nil => rfl
  | cons c rest ih =>
      have hs := debug_off_step l c h
      calc (applyDebugCalls l (c :: rest)).written
          = (applyDebugCalls (applyDebugCall l c) rest).written := rfl
        _ = (applyDebugCall l c).written := ih (applyDebugCall l c) hs.2
        _ = l.written := hs.1

/-- Witness for C4: a debug-off logger with prior output, hit with one call
of each kind, stays unchanged. -/
theorem C4_witness :
    (New ["old\n"] "" LstdFlags false).debug = false ∧
    (applyDebugCalls (New ["old\n"] "" LstdFlags false)
        [DebugCall.dbg [GoValue.str "x"], DebugCall.dbgln [GoValue.int 5],
          DebugCall.dbgf "%s" [GoValue.str "y"]]).written =
      (New ["old\n"] "" LstdFlags false).written :=
  ⟨rfl, C4_debug_off_writes_nothing (New ["old\n"] "" LstdFlags false) rfl
    [DebugCall.dbg [GoValue.str "x"], DebugCall.dbgln [GoValue.int 5],
      DebugCall.dbgf "%s" [GoValue.str "y"]]⟩

/-- C5: for every logger with debug on, Debug("a ", "b") appends the record
"a b\n" (payload containing "a b"), Debugln("a", "b") appends "a b\n"
("a b" followed by the line terminator), and Debugf("%s%s", "a", "b")
appends "ab\n" (payload containing "ab"). -/
theorem C5_debug_on_payloads (l : Logger) (h : l.debug = true) :
    (l.Debug [.str "a ", .str "b"]).written = l.written ++ ["a b\n"] ∧
    (l.Debugln [.str "a", .str "b"]).written = l.written ++ ["a b\n"] ∧
    (l.Debugf "%s%s" [.str "a", .str "b"]).written = l.written ++ ["ab\n"] := by
  have e1 : withNewline (sprint [GoValue.str "a ", GoValue.str "b"]) = "a b\n" := by decide
  have e2 : withNewline (sprintln [GoValue.str "a", GoValue.str "b"]) = "a b\n" := by decide
  have e3 : withNewline (sprintf "%s%s" [GoValue.str "a", GoValue.str "b"]) = "ab\n" := by decide
  exact ⟨by rw [Debug_written_debug_on l h, e1],
    by rw [Debugln_written_debug_on l h, e2],
    by rw [Debugf_written_debug_on l h, e3]⟩

/-- Witness for C5 at a concrete debug-on logger. -/
theorem C5_witness :
    (New [] "" LstdFlags true).debug = true ∧
    (((New [] "" LstdFlags true).Debug [.str "a ", .str "b"]).written =
        (New [] "" LstdFlags true).written ++ ["a b\n"] ∧
      ((New [] "" LstdFlags true).Debugln [.str "a", .str "b"]).written =
        (New [] "" LstdFlags true).written ++ ["a b\n"] ∧
      ((New [] "" LstdFlags true).Debugf "%s%s" [.str "a", .str "b"]).written =
        (New [] "" LstdFlags true).written ++ ["ab\n"]) :=
  ⟨rfl, C5_debug_on_payloads (New [] "" LstdFlags true) rfl⟩

/-- C6: FromContext on a context with no logger attached returns the
process-wide default instance, and FromContext after NewContext with a
(non-nil) logger returns exactly that logger. -/
theorem C6_FromContext_default_and_attached (s : Logger) (ctx : Context) (L : Logger) :
    (ctx.loggerValue = none → FromContext s ctx = s) ∧
    FromContext s (NewContext ctx (some L)) = L := by
  constructor
  · intro h
    cases ctx with
    | background => rfl
    | withLogger p l => simp [Context.loggerValue] at h
  · rfl

/-- Witness for C6: the background context and a freshly attached logger. -/
theorem C6_witness :
    Context.background.loggerValue = none ∧
    FromContext (New [] "" LstdFlags false) Context.background = New [] "" LstdFlags false ∧
    FromContext (New [] "" LstdFlags false)
        (NewContext Context.background (some (New [] ">" LstdFlags true))) =
      New [] ">" LstdFlags true :=
  ⟨rfl,
    (C6_FromContext_default_and_attached (New [] "" LstdFlags false) Context.background
      (New [] ">" LstdFlags true)).1 rfl,
    (C6_FromContext_default_and_attached (New [] "" LstdFlags false) Context.background
      (New [] ">" LstdFlags true)).2⟩

/-- C7: the startup default logger has debug on exactly when the DEBUG
environment variable is non-empty; its flags always contain the date bit
(bit 0) and the time bit (bit 1), and contain the short-file-name bit
(bit 4) exactly when debug is on. -/
theorem C7_initStd_default_state (env : String) :
    ((initStd env).debug = true ↔ env ≠ "") ∧
    Nat.testBit (initStd env).getFlags 0 = true ∧
    Nat.testBit (initStd env).getFlags 1 = true ∧
    (Nat.testBit (initStd env).getFlags 4 = true ↔ (initStd env).debug = true) := by
  by_cases h : env = ""
  · subst h
    exact ⟨by decide, by decide, by decide, by decide⟩
  · have hb : (env != "") = true := bne_iff_ne.mpr h
    have hd : (initStd env).debug = true := by simp [initStd, New, hb]
    have hf : (initStd env).getFlags = LstdFlags ||| Lshortfile := by
      simp [initStd, New, Logger.getFlags, hb]
    refine ⟨⟨fun _ => h, fun _ => hd⟩, ?_, ?_, ?_⟩
    · rw [hf]; decide
    · rw [hf]; decide
    · rw [hf]
      exact ⟨fun _ => hd, fun _ => by decide⟩

/-- C8: for every logger with an embedded logger present and any debug
state, Panic/Panicf/Panicln write the formatted message as one record and
the panic value is exactly that formatted string. -/
theorem C8_Panic_writes_then_panics (l : Logger) (b : BaseLogger) (h : l.base = some b)
    (v : List GoValue) (f : String) :
    (l.Panic v).map (fun p => (p.1.written, p.2)) =
      some (l.written ++ [withNewline (sprint v)], sprint v) ∧
    (l.Panicf f v).map (fun p => (p.1.written, p.2)) =
      some (l.written ++ [withNewline (sprintf f v)], sprintf f v) ∧
    (l.Panicln v).map (fun p => (p.1.written, p.2)) =
      some (l.written ++ [withNewline (sprintln v)], sprintln v) := by
  simp [Logger.Panic, Logger.Panicf, Logger.Panicln, Logger.Output, h,
    Logger.written, BaseLogger.output]

/-- Witness for C8 at a debug-off logger, showing the write and the panic
value happen independently of the debug flag. -/
theorem C8_witness :
    (New [] "" LstdFlags false).base = some ⟨[], "", LstdFlags⟩ ∧
    (((New [] "" LstdFlags false).Panic [GoValue.str "boom"]).map
        (fun p => (p.1.written, p.2)) =
      some ((New [] "" LstdFlags false).written ++
          [withNewline (sprint [GoValue.str "boom"])], sprint [GoValue.str "boom"]) ∧
    ((New [] "" LstdFlags false).Panicf "%s" [GoValue.str "boom"]).map
        (fun p => (p.1.written, p.2)) =
      some ((New [] "" LstdFlags false).written ++
          [withNewline (sprintf "%s" [GoValue.str "boom"])], sprintf "%s" [GoValue.str "boom"]) ∧
    ((New [] "" LstdFlags false).Panicln [GoValue.str "boom"]).map
        (fun p => (p.1.written, p.2)) =
      some ((New [] "" LstdFlags false).written ++
          [withNewline (sprintln [GoValue.str "boom"])], sprintln [GoValue.str "boom"])) :=
  ⟨rfl, C8_Panic_writes_then_panics (New [] "" LstdFlags false) ⟨[], "", LstdFlags⟩ rfl
    [GoValue.str "boom"] "%s"⟩

/-- C9: the package-level Fatal/Fatalf/Fatalln write the formatted message
to the default logger regardless of its debug state, and terminate the
process with exit status 1. -/
theorem C9_Fatal_writes_then_exits_1 (std : Logger) (b : BaseLogger)
    (h : std.base = some b) (v : List GoValue) (f : String) :
    (Fatal std v).map (fun p => (p.1.written, p.2)) =
      some (std.written ++ [withNewline (sprint v)], 1) ∧
    (Fatalf std f v).map (fun p => (p.1.written, p.2)) =
      some (std.written ++ [withNewline (sprintf f v)], 1) ∧
    (Fatalln std v).map (fun p => (p.1.written, p.2)) =
      some (std.written ++ [withNewline (sprintln v)], 1) := by
  simp [Fatal, Fatalf, Fatalln, Logger.Output, h, Logger.written, BaseLogger.output]

/-- Witness for C9 at a debug-off default logger. -/
theorem C9_witness :
    (initStd "").base = some ⟨[], "", LstdFlags⟩ ∧
    ((Fatal (initStd "") [GoValue.str "bye"]).map (fun p => (p.1.written, p.2)) =
      some ((initStd "").written ++ [withNewline (sprint [GoValue.str "bye"])], 1) ∧
    (Fatalf (initStd "") "%s" [GoValue.str "bye"]).map (fun p => (p.1.written, p.2)) =
      some ((initStd "").written ++ [withNewline (sprintf "%s" [GoValue.str "bye"])], 1) ∧
    (Fatalln (initStd "") [GoValue.str "bye"]).map (fun p => (p.1.written, p.2)) =
      some ((initStd "").written ++ [withNewline (sprintln [GoValue.str "bye"])], 1)) :=
  ⟨rfl, C9_Fatal_writes_then_exits_1 (initStd "") ⟨[], "", LstdFlags⟩ rfl
    [GoValue.str "bye"] "%s"⟩

/-- C10: attaching a nil logger pointer under the logger key does not make
FromContext return nil: for every context, FromContext on the derived
context yields the process-wide default instance. -/
theorem C10_FromContext_nil_attached_yields_std (s : Logger) (ctx : Context) :
    FromContext s (NewContext ctx none) = s := rfl

end Dlog
